import Mathlib

/-!
Verification of the xarf-python parser/validator/generator core.

The Python sources are shallowly embedded:
* JSON-compatible Python values become the inductive `Json`
  (dicts are association lists in insertion order, as Python dicts are ordered);
* stateful methods become pure functions threading their diagnostic lists;
* code that can raise returns `Except PyErr _`, with the `try/except` blocks of
  the source made explicit;
* the process-wide `SchemaRegistry` singleton consulted by the parser and
  generator is passed explicitly as a `RegistryView` of its query methods,
  and the `jsonschema`-driven conformance pass (an external library reading
  the schema bundle from disk) is a function parameter `sv`;
* `datetime.fromisoformat` success is an abstract predicate `iso`, and
  `json.loads` is an abstract decoder `jp` (both are library calls outside
  the repository).
-/

namespace Xarf

/-- A decoded JSON-compatible Python value (`json.loads` output; numbers are
modelled as integers, which is enough for every claim considered here). -/
inductive Json where
  | null
  | bool (b : Bool)
  | num (n : Int)
  | str (s : String)
  | arr (elems : List Json)
  | obj (fields : List (String × Json))
deriving Inhabited

mutual

/-- Structural equality of decoded values (Python `==` on `json.loads` output). -/
def Json.decEq : (a b : Json) → Decidable (a = b)
  | .null, .null => isTrue rfl
  | .bool a, .bool b => decidable_of_iff (a = b) (by simp)
  | .num a, .num b => decidable_of_iff (a = b) (by simp)
  | .str a, .str b => decidable_of_iff (a = b) (by simp)
  | .arr a, .arr b =>
    match Json.decEqList a b with
    | isTrue h => isTrue (by rw [h])
    | isFalse h => isFalse (fun hh => h (by injection hh))
  | .obj a, .obj b =>
    match Json.decEqFields a b with
    | isTrue h => isTrue (by rw [h])
    | isFalse h => isFalse (fun hh => h (by injection hh))
  | .null, .bool _ => isFalse (fun h => Json.noConfusion h)
  | .null, .num _ => isFalse (fun h => Json.noConfusion h)
  | .null, .str _ => isFalse (fun h => Json.noConfusion h)
  | .null, .arr _ => isFalse (fun h => Json.noConfusion h)
  | .null, .obj _ => isFalse (fun h => Json.noConfusion h)
  | .bool _, .null => isFalse (fun h => Json.noConfusion h)
  | .bool _, .num _ => isFalse (fun h => Json.noConfusion h)
  | .bool _, .str _ => isFalse (fun h => Json.noConfusion h)
  | .bool _, .arr _ => isFalse (fun h => Json.noConfusion h)
  | .bool _, .obj _ => isFalse (fun h => Json.noConfusion h)
  | .num _, .null => isFalse (fun h => Json.noConfusion h)
  | .num _, .bool _ => isFalse (fun h => Json.noConfusion h)
  | .num _, .str _ => isFalse (fun h => Json.noConfusion h)
  | .num _, .arr _ => isFalse (fun h => Json.noConfusion h)
  | .num _, .obj _ => isFalse (fun h => Json.noConfusion h)
  | .str _, .null => isFalse (fun h => Json.noConfusion h)
  | .str _, .bool _ => isFalse (fun h => Json.noConfusion h)
  | .str _, .num _ => isFalse (fun h => Json.noConfusion h)
  | .str _, .arr _ => isFalse (fun h => Json.noConfusion h)
  | .str _, .obj _ => isFalse (fun h => Json.noConfusion h)
  | .arr _, .null => isFalse (fun h => Json.noConfusion h)
  | .arr _, .bool _ => isFalse (fun h => Json.noConfusion h)
  | .arr _, .num _ => isFalse (fun h => Json.noConfusion h)
  | .arr _, .str _ => isFalse (fun h => Json.noConfusion h)
  | .arr _, .obj _ => isFalse (fun h => Json.noConfusion h)
  | .obj _, .null => isFalse (fun h => Json.noConfusion h)
  | .obj _, .bool _ => isFalse (fun h => Json.noConfusion h)
  | .obj _, .num _ => isFalse (fun h => Json.noConfusion h)
  | .obj _, .str _ => isFalse (fun h => Json.noConfusion h)
  | .obj _, .arr _ => isFalse (fun h => Json.noConfusion h)

/-- Equality decision for lists of values. -/
def Json.decEqList : (a b : List Json) → Decidable (a = b)
  | [], [] => isTrue rfl
  | [], _ :: _ => isFalse (fun h => List.noConfusion h)
  | _ :: _, [] => isFalse (fun h => List.noConfusion h)
  | x :: xs, y :: ys =>
    match Json.decEq x y, Json.decEqList xs ys with
    | isTrue h1, isTrue h2 => isTrue (by rw [h1, h2])
    | isFalse h1, _ => isFalse (fun h => h1 (by injection h))
    | isTrue _, isFalse h2 => isFalse (fun h => h2 (by injection h))

/-- Equality decision for key-value member lists. -/
def Json.decEqFields : (a b : List (String × Json)) → Decidable (a = b)
  | [], [] => isTrue rfl
  | [], _ :: _ => isFalse (fun h => List.noConfusion h)
  | _ :: _, [] => isFalse (fun h => List.noConfusion h)
  | (k1, v1) :: xs, (k2, v2) :: ys =>
    match String.decEq k1 k2, Json.decEq v1 v2, Json.decEqFields xs ys with
    | isTrue hk, isTrue hv, isTrue ht => isTrue (by rw [hk, hv, ht])
    | isFalse hk, _, _ =>
      isFalse (fun h => by
        injection h with h1 h2
        exact hk (congrArg Prod.fst h1))
    | isTrue _, isFalse hv, _ =>
      isFalse (fun h => by
        injection h with h1 h2
        exact hv (congrArg Prod.snd h1))
    | isTrue _, isTrue _, isFalse ht =>
      isFalse (fun h => by
        injection h with h1 h2
        exact ht h2)

end

instance : DecidableEq Json := Json.decEq

/-- A Python dict with string keys, in insertion order. -/
abbrev Doc := List (String × Json)

/-- Python truthiness (`if x:`) of a decoded JSON value. -/
def Json.truthy : Json → Bool
  | .null => false
  | .bool b => b
  | .num n => n != 0
  | .str s => !s.isEmpty
  | .arr es => !es.isEmpty
  | .obj fs => !fs.isEmpty

/-- Approximation of Python `str()` on a decoded value, used only inside
human-readable diagnostic messages (no claim depends on the exact rendering
of non-string values). -/
def Json.pyStr : Json → String
  | .null => "None"
  | .bool true => "True"
  | .bool false => "False"
  | .num n => toString n
  | .str s => s
  | .arr _ => "[...]"
  | .obj _ => "{...}"

namespace Doc

/-- `d.get(k)` on a Python dict (no default). -/
def get (d : Doc) (k : String) : Option Json :=
  (d.find? (fun kv => kv.1 == k)).map (·.2)

/-- `d.get(k, default)`. -/
def getD (d : Doc) (k : String) (v : Json) : Json :=
  (d.get k).getD v

/-- `k in d` on a Python dict. -/
def hasKey (d : Doc) (k : String) : Bool :=
  d.any (fun kv => kv.1 == k)

/-- `list(d.keys())`. -/
def keys (d : Doc) : List String := d.map (·.1)

/-- `d[k] = v`: update in place if the key exists, else append (Python dict
assignment preserves insertion order). -/
def set : Doc → String → Json → Doc
  | [], k, v => [(k, v)]
  | (k', v') :: rest, k, v =>
    if k' = k then (k, v) :: rest else (k', v') :: set rest k v

/-- `d.get(k)` followed by a truthiness test: `some v` iff the key is present
with a truthy value (the `x = d.get(k)` / `if x:` idiom). -/
def getTruthy (d : Doc) (k : String) : Option Json :=
  match d.get k with
  | some v => if v.truthy then some v else none
  | none => none

end Doc

/-! ### String helpers

Structural (kernel-computable) char-list implementations of the Python string
operations the sources use: `in` (substring), `str.replace`, `str.split`,
`str.lower`, `str.endswith`. -/

/-- Is `pat` a prefix of `s` (char lists)? -/
def isPre : List Char → List Char → Bool
  | [], _ => true
  | _ :: _, [] => false
  | a :: as, b :: bs => a == b && isPre as bs

/-- Does `s` contain `pat` as a substring (char lists)? -/
def charsContains : List Char → List Char → Bool
  | [], pat => pat.isEmpty
  | c :: cs, pat => isPre pat (c :: cs) || charsContains cs pat

/-- Python `pat in s` substring test. -/
def strContains (s pat : String) : Bool :=
  charsContains s.data pat.data

/-- Replace every occurrence of (nonempty) `pat` by `rep`, fuelled. -/
def pyReplaceAux : Nat → List Char → List Char → List Char → List Char
  | 0, s, _, _ => s
  | _ + 1, [], _, _ => []
  | fuel + 1, c :: cs, pat, rep =>
    if isPre pat (c :: cs) && !pat.isEmpty then
      rep ++ pyReplaceAux fuel ((c :: cs).drop pat.length) pat rep
    else c :: pyReplaceAux fuel cs pat rep

/-- Python `s.replace(pat, rep)` (for nonempty `pat`, which is how the
sources use it). -/
def pyReplace (s pat rep : String) : String :=
  String.mk (pyReplaceAux (s.data.length + 1) s.data pat.data rep.data)

/-- Split on every occurrence of (nonempty) `pat`, fuelled; `cur` is the
reversed current chunk. -/
def pySplitAux : Nat → List Char → List Char → List Char → List (List Char)
  | 0, s, _, cur => [cur.reverse ++ s]
  | _ + 1, [], _, cur => [cur.reverse]
  | fuel + 1, c :: cs, pat, cur =>
    if isPre pat (c :: cs) && !pat.isEmpty then
      cur.reverse :: pySplitAux fuel ((c :: cs).drop pat.length) pat []
    else pySplitAux fuel cs pat (c :: cur)

/-- Python `s.split(pat)` for nonempty `pat`. -/
def pySplitOn (s pat : String) : List String :=
  (pySplitAux (s.data.length + 1) s.data pat.data []).map String.mk

/-- Python `s.lower()` (ASCII, which covers the vocabulary in play). -/
def pyLower (s : String) : String :=
  String.mk (s.data.map Char.toLower)

/-- Python `s.endswith(suf)`. -/
def strEndsWith (s suf : String) : Bool :=
  isPre suf.data.reverse s.data.reverse

/-! ## Diagnostics (`parser.py`: `ValidationError` / `ValidationWarning` /
`ValidationInfo` / `ValidationResult`) -/

/-- `ValidationError` and `ValidationWarning` share this shape: a dotted field
path, a human-readable message and the offending value (`None` ↦ `.null`). -/
structure VDiag where
  field : String
  message : String
  value : Json
deriving DecidableEq

/-- `ValidationInfo` for missing optional fields. -/
structure VInfo where
  field : String
  message : String
deriving DecidableEq

/-- `ValidationResult`. `info` is `none` unless `show_missing_optional` was set. -/
structure ValidationResult where
  valid : Bool
  errors : List VDiag
  warnings : List VDiag
  info : Option (List VInfo)
deriving DecidableEq

/-- The structural errors `validate_structure` appends to `self.errors`
(each constructor stands for one of the distinct f-string templates of
`parser.py`, carrying the interpolated data). -/
inductive StructErr where
  | missingRequired (fields : List String)
  | unsupportedVersion (v : Option Json)
  | reporterNotObject
  | missingReporter (fields : List String)
  | senderNotObject
  | missingSender (fields : List String)
  | invalidTimestamp (v : Option Json)
  | missingCategory
  | invalidCategory (v : Json)
  | missingType
  | invalidType (t : Json) (c : Json)
  | invalidCategoryParse (v : Json)
deriving DecidableEq

/-- Python exceptions that can escape the embedded code. -/
inductive PyErr where
  | parseError (msg : String)
  | validationError (msg : String) (errs : List StructErr)
  | xarfError (msg : String)
  | modelError (msg : String)
  | attributeError
  | typeError
  | keyError (k : String)
deriving DecidableEq

/-! ## Registry view

The parser and generator consult the process-wide `schema_registry` singleton
through these query methods; the singleton is passed explicitly here. -/

/-- The `SchemaRegistry` queries used by `XARFParser` and `XARFGenerator`.
Set-valued queries are lists (Python set iteration order is abstracted; no
claim depends on it). -/
structure RegistryView where
  categories : List Json
  typesFor : Json → List Json
  evidenceSources : List Json
  requiredFields : List String
  contactRequired : List String
  coreProps : List String
  categoryFields : Json → Json → List String
  optionalInfo : Option Json → Option Json → List (String × String × Bool)

/-! ## `XARFParser.validate` pipeline (`parser.py`) -/

/-- `_validate_required_fields`: one error per registry-required field absent
from the document. -/
def requiredFieldErrs (view : RegistryView) (d : Doc) : List VDiag :=
  view.requiredFields.filterMap fun f =>
    if d.hasKey f then none
    else some ⟨f, s!"Missing required field: {f}", .null⟩

/-- `_validate_contact_info`: one error per registry contact-required field
absent from the contact sub-object, with a dotted field path. -/
def contactInfoErrs (view : RegistryView) (contact : Doc) (pre : String) :
    List VDiag :=
  view.contactRequired.filterMap fun f =>
    if contact.hasKey f then none
    else some ⟨pre ++ "." ++ f,
      "Missing required field: " ++ pre ++ "." ++ f, .null⟩

/-- `_validate_formats`: timestamp parseability, then reporter and sender
contact sub-objects (skipped when the value is not a dict). -/
def formatErrs (view : RegistryView) (iso : String → Bool) (d : Doc) :
    List VDiag :=
  (match d.getTruthy "timestamp" with
   | none => []
   | some ts =>
     if iso (pyReplace ts.pyStr "Z" "+00:00") then []
     else
       let t := ts.pyStr
       [⟨"timestamp", s!"Invalid timestamp format: {t}", ts⟩])
  ++ (match d.getD "reporter" (.obj []) with
      | .obj rep => contactInfoErrs view rep "reporter"
      | _ => [])
  ++ (match d.getD "sender" (.obj []) with
      | .obj snd => contactInfoErrs view snd "sender"
      | _ => [])

/-- `_validate_values`, error half: category membership and type-for-category
membership against the registry. -/
def valueErrs (view : RegistryView) (d : Doc) : List VDiag :=
  (match d.getTruthy "category" with
   | none => []
   | some c =>
     if c ∈ view.categories then []
     else
       let cs := c.pyStr
       [⟨"category", s!"Invalid category {cs}", c⟩])
  ++ (match d.getTruthy "category", d.getTruthy "type" with
      | some c, some t =>
        if t ∈ view.typesFor c then []
        else
          let ts := t.pyStr
          let cs := c.pyStr
          [⟨"type", s!"Invalid type {ts} for category {cs}", t⟩]
      | _, _ => [])

/-- `_validate_values`, warning half: unknown `evidence_source` is a warning
when the registry vocabulary is non-empty and does not contain the value. -/
def evidenceWarns (view : RegistryView) (d : Doc) : List VDiag :=
  match d.getTruthy "evidence_source" with
  | none => []
  | some v =>
    if !view.evidenceSources.isEmpty && v ∉ view.evidenceSources then
      let vs := v.pyStr
      [⟨"evidence_source", s!"Unknown evidence_source {vs}", v⟩]
    else []

/-- `_validate_category_specific`, error half: a messaging report whose
`protocol` equals `"smtp"` must carry a truthy `smtp_from`. -/
def catSpecificErrs (d : Doc) : List VDiag :=
  match d.getTruthy "category", d.getTruthy "type" with
  | some c, some _ =>
    if c = .str "messaging" then
      if d.get "protocol" = some (.str "smtp") && (d.getTruthy "smtp_from").isNone
      then [⟨"smtp_from", "smtp_from required when protocol is smtp", .null⟩]
      else []
    else []
  | _, _ => []

/-- `_validate_category_specific`, warning half: connection reports without
`destination_ip` and content reports without `url` draw advisories. -/
def catSpecificWarns (d : Doc) : List VDiag :=
  match d.getTruthy "category", d.getTruthy "type" with
  | some c, some _ =>
    if c = .str "connection" then
      if (d.getTruthy "destination_ip").isNone then
        [⟨"destination_ip", "destination_ip recommended for connection reports",
          .null⟩]
      else []
    else if c = .str "content" then
      if (d.getTruthy "url").isNone then
        [⟨"url", "url recommended for content reports", .null⟩]
      else []
    else []
  | _, _ => []

/-- `_collect_unknown_fields`: a warning for every document key outside the
core property names plus (when category and type are truthy) the
category-specific field list. -/
def unknownFieldWarns (view : RegistryView) (d : Doc) : List VDiag :=
  let known := view.coreProps ++
    (match d.getTruthy "category", d.getTruthy "type" with
     | some c, some t => view.categoryFields c t
     | _, _ => [])
  d.filterMap fun kv =>
    if kv.1 ∈ known then none
    else
      let k := kv.1
      some ⟨k, s!"Unknown field {k} is not defined in the XARF schema", kv.2⟩

/-- `_collect_missing_optional_fields`. -/
def missingOptionalInfo (view : RegistryView) (d : Doc) : List VInfo :=
  (view.optionalInfo (d.get "category") (d.get "type")).filterMap fun fi =>
    if !d.hasKey fi.1 || d.get fi.1 = some .null then
      let pre := if fi.2.2 then "RECOMMENDED" else "OPTIONAL"
      let desc := if fi.2.1.isEmpty then s!"Optional field: {fi.1}" else fi.2.1
      some ⟨fi.1, s!"{pre}: {desc}"⟩
    else none

/-- `_deduplicate_errors`: keep the first error for each (field, message)
pair. -/
def dedupErrs : List VDiag → List (String × String) → List VDiag
  | [], _ => []
  | e :: rest, seen =>
    if (e.field, e.message) ∈ seen then dedupErrs rest seen
    else e :: dedupErrs rest ((e.field, e.message) :: seen)

/-- All errors collected by `validate` on a dict, in append order: the schema
conformance pass (when enabled), required fields, formats, values, and the
category-specific business rule. -/
def collectedErrs (view : RegistryView) (sv : Option (Doc → List VDiag))
    (iso : String → Bool) (d : Doc) : List VDiag :=
  (match sv with | some f => f d | none => [])
  ++ requiredFieldErrs view d ++ formatErrs view iso d
  ++ valueErrs view d ++ catSpecificErrs d

/-- All warnings collected by `validate` on a dict, in append order. -/
def collectedWarns (view : RegistryView) (d : Doc) : List VDiag :=
  evidenceWarns view d ++ catSpecificWarns d ++ unknownFieldWarns view d

/-- `XARFParser.validate` on an already-decoded dict: run both validation
passes, deduplicate errors, promote warnings to errors when `strict`, and
report `valid` as "no errors remain". -/
def validateDoc (view : RegistryView) (sv : Option (Doc → List VDiag))
    (iso : String → Bool) (d : Doc) (strict showOpt : Bool) :
    ValidationResult :=
  let errs := dedupErrs (collectedErrs view sv iso d) []
  let warns := collectedWarns view d
  let errs2 := if strict && !warns.isEmpty then errs ++ warns else errs
  let warns2 := if strict && !warns.isEmpty then [] else warns
  { valid := errs2.isEmpty
    errors := errs2
    warnings := warns2
    info := if showOpt then some (missingOptionalInfo view d) else none }

/-- `XARFParser.validate`: decode a string input (malformed JSON is caught and
returned as a `$root` error), then validate. A well-formed JSON input that is
not an object makes the Python code call `.get`/`in` on a non-dict, raising
`AttributeError` (inside `SchemaValidator.validate`) or `TypeError` (inside
`_validate_required_fields`), collapsed here into `.attributeError`. -/
def validate (view : RegistryView) (sv : Option (Doc → List VDiag))
    (iso : String → Bool) (jp : String → Except String Json)
    (input : String ⊕ Json) (strict showOpt : Bool) :
    Except PyErr ValidationResult :=
  match input with
  | .inl s =>
    match jp s with
    | .error e =>
      .ok { valid := false
            errors := [⟨"$root", s!"Invalid JSON: {e}", .null⟩]
            warnings := []
            info := none }
    | .ok (.obj d) => .ok (validateDoc view sv iso d strict showOpt)
    | .ok _ => .error .attributeError
  | .inr (.obj d) => .ok (validateDoc view sv iso d strict showOpt)
  | .inr _ => .error .attributeError

/-! ## `XARFParser.validate_structure` (`parser.py`) -/

/-- `_validate_category_type`: category present, registry-valid, then type
present and registry-valid for the category. -/
def categoryTypeCheck (view : RegistryView) (d : Doc) :
    Bool × List StructErr :=
  match d.getTruthy "category" with
  | none => (false, [.missingCategory])
  | some c =>
    if c ∉ view.categories then (false, [.invalidCategory c])
    else
      match d.getTruthy "type" with
      | none => (false, [.missingType])
      | some t =>
        if t ∉ view.typesFor c then (false, [.invalidType t c])
        else (true, [])

/-- `validate_structure`: fast-fail structural pre-check. Stops at the first
failing stage, appending one structural error. The timestamp stage indexes
`data["timestamp"]` directly, so a document missing that key (possible only
when the registry does not require it) raises `KeyError`; a non-string
timestamp raises `AttributeError` at `.replace`, which the source catches and
turns into the invalid-timestamp error. -/
def validateStructure (view : RegistryView) (iso : String → Bool) (d : Doc) :
    Except PyErr (Bool × List StructErr) :=
  let missing := view.requiredFields.filter (fun f => !d.hasKey f)
  if !missing.isEmpty then .ok (false, [.missingRequired missing])
  else if d.get "xarf_version" ≠ some (.str "4.0.0") then
    .ok (false, [.unsupportedVersion (d.get "xarf_version")])
  else
    match d.getD "reporter" (.obj []) with
    | .obj rep =>
      let missRep := view.contactRequired.filter (fun f => !(Doc.hasKey rep f))
      if !missRep.isEmpty then .ok (false, [.missingReporter missRep])
      else
        match d.getD "sender" (.obj []) with
        | .obj snd =>
          let missSnd :=
            view.contactRequired.filter (fun f => !(Doc.hasKey snd f))
          if !missSnd.isEmpty then .ok (false, [.missingSender missSnd])
          else
            match d.get "timestamp" with
            | none => .error (.keyError "timestamp")
            | some (.str s) =>
              if iso (pyReplace s "Z" "+00:00") then
                .ok (categoryTypeCheck view d)
              else .ok (false, [.invalidTimestamp (d.get "timestamp")])
            | some _ => .ok (false, [.invalidTimestamp (d.get "timestamp")])
        | _ => .ok (false, [.senderNotObject])
    | _ => .ok (false, [.reporterNotObject])

/-! ## Legacy-format converter (`v3_compat.py`) -/

/-- `is_v3_report`: legacy fingerprint — has `Version`, lacks `xarf_version`. -/
def isV3Report (d : Doc) : Bool :=
  d.hasKey "Version" && !d.hasKey "xarf_version"

/-- The single deprecation message `convert_v3_to_v4` emits via
`warnings.warn` (always delivered: the module installs a
`simplefilter("always", ...)` for its warning class). -/
def v3DeprecationMsg : String :=
  "XARF v3 format is deprecated. Please upgrade to XARF v4."

/-- `v3_data.get(key, {})` followed by attribute access on the result: a
non-dict value raises `AttributeError` at its first `.get`. -/
def asObjD (d : Doc) (k : String) : Except PyErr Doc :=
  match d.getD k (.obj []) with
  | .obj o => .ok o
  | _ => .error .attributeError

/-- `report.get(key, "").lower()`: `AttributeError` on a non-string value. -/
def pyLowerD (d : Doc) (k : String) : Except PyErr String :=
  match d.getD k (.str "") with
  | .str s => .ok (pyLower s)
  | _ => .error .attributeError

/-- The fixed v3 `ReportClass` → v4 category table (`category_map`). -/
def categoryMap : List (String × String) :=
  [("messaging", "messaging"), ("activity", "messaging"),
   ("connection", "connection"), ("content", "content"),
   ("infrastructure", "infrastructure"), ("copyright", "copyright"),
   ("vulnerability", "vulnerability"), ("reputation", "reputation")]

/-- `_map_evidence_source`: keyword-sniff the legacy detection-method text. -/
def mapEvidenceSource (m : Option Json) : Except PyErr String :=
  match m with
  | none => .ok "automated_scan"
  | some v =>
    if !v.truthy then .ok "automated_scan"
    else
      match v with
      | .str s =>
        let lo := pyLower s
        .ok (if strContains lo "spamtrap" then "spamtrap"
          else if strContains lo "honeypot" then "honeypot"
          else if strContains lo "user" || strContains lo "manual" then
            "user_report"
          else if strContains lo "scan" then "automated_scan"
          else if strContains lo "vuln" then "vulnerability_scan"
          else "automated_scan")
      | _ => .error .attributeError

/-- `_convert_attachments`: rename the fields of each attachment dict. -/
def convertAttachments (items : List Json) : Except PyErr (List Json) :=
  items.mapM fun a =>
    match a with
    | .obj o =>
      .ok (.obj
        [("content_type", Doc.getD o "ContentType" (.str "text/plain")),
         ("description", Doc.getD o "Description" (.str "Evidence from v3 report")),
         ("payload", Doc.getD o "Data" (.str ""))])
    | _ => .error .attributeError

/-- `_add_messaging_fields`. -/
def addMessagingFields (d : Doc) (additional : Doc) : Doc :=
  let d := d.set "protocol" (additional.getD "Protocol" (.str "smtp"))
  let d := if additional.hasKey "SMTPFrom" then
      d.set "smtp_from" (additional.getD "SMTPFrom" .null) else d
  let d := if additional.hasKey "Subject" then
      d.set "subject" (additional.getD "Subject" .null) else d
  let d := if additional.hasKey "SMTPTo" then
      d.set "smtp_to" (additional.getD "SMTPTo" .null) else d
  if additional.hasKey "MessageId" then
    d.set "message_id" (additional.getD "MessageId" .null) else d

/-- `_add_connection_fields`. -/
def addConnectionFields (d : Doc) (report source additional : Doc) : Doc :=
  let d := d.set "destination_ip" (report.getD "DestinationIp" (.str "0.0.0.0"))
  let d := d.set "protocol" (additional.getD "Protocol" (.str "tcp"))
  let d := if source.hasKey "Port" then
      d.set "source_port" (source.getD "Port" .null) else d
  let d := if report.hasKey "DestinationPort" then
      d.set "destination_port" (report.getD "DestinationPort" .null) else d
  let d := if additional.hasKey "AttackType" then
      d.set "attack_type" (additional.getD "AttackType" .null) else d
  let d := if additional.hasKey "PacketCount" then
      d.set "packet_count" (additional.getD "PacketCount" .null) else d
  if additional.hasKey "ByteCount" then
    d.set "byte_count" (additional.getD "ByteCount" .null) else d

/-- `_add_content_fields`. -/
def addContentFields (d : Doc) (report additional : Doc) : Doc :=
  let url := match report.getTruthy "URL" with
    | some v => v
    | none => additional.getD "URL" (.str "http://unknown")
  let d := d.set "url" url
  let d := if additional.hasKey "ContentType" then
      d.set "content_type" (additional.getD "ContentType" .null) else d
  if additional.hasKey "AttackType" then
    d.set "attack_type" (additional.getD "AttackType" .null) else d

/-- `_add_infrastructure_fields`: append botnet/malware tags. A non-list
`tags` value would make the Python `+` raise `TypeError` (unreachable from
`convert_v3_to_v4`, where `tags` is still unset at this point). -/
def addInfrastructureFields (d : Doc) (additional : Doc) :
    Except PyErr Doc := do
  let d ←
    if additional.hasKey "BotnetName" then
      match d.getD "tags" (.arr []) with
      | .arr ts =>
        let b := (additional.getD "BotnetName" .null).pyStr
        pure (d.set "tags" (.arr (ts ++ [.str s!"botnet:{b}"])))
      | _ => throw .typeError
    else pure d
  if additional.hasKey "MalwareFamily" then
    match d.getD "tags" (.arr []) with
    | .arr ts =>
      let m := (additional.getD "MalwareFamily" .null).pyStr
      pure (d.set "tags" (.arr (ts ++ [.str s!"malware:{m}"])))
    | _ => throw .typeError
  else pure d

/-- The attachment-conversion step of `convert_v3_to_v4`: when the legacy
`Attachment` value is truthy, map it into the `evidence` field (a non-list
truthy value raises at iteration / attribute access). -/
def attachStep (v4 : Doc) (attachments : Json) : Except PyErr Doc :=
  if attachments.truthy then
    match attachments with
    | .arr items => do
      let ev ← convertAttachments items
      pure (v4.set "evidence" (.arr ev))
    | _ => throw .attributeError
  else pure v4

/-- The category dispatch of `convert_v3_to_v4` onto the four
`_add_*_fields` helpers. -/
def categoryStep (category : String) (v4 report source additional : Doc) :
    Except PyErr Doc :=
  if category = "messaging" then pure (addMessagingFields v4 additional)
  else if category = "connection" then
    pure (addConnectionFields v4 report source additional)
  else if category = "content" then pure (addContentFields v4 report additional)
  else if category = "infrastructure" then
    addInfrastructureFields v4 additional
  else pure v4

/-- `convert_v3_to_v4`, with the fresh report id (`uuid.uuid4()`) and current
instant (`datetime.now`) passed explicitly. Returns the converted document
and the list of deprecation warnings emitted during the call. -/
def convertV3 (v3 : Doc) (freshId now : String) :
    Except PyErr (Doc × List String) := do
  let warns := [v3DeprecationMsg]
  let reporterInfo ← asObjD v3 "ReporterInfo"
  let report ← asObjD v3 "Report"
  let source ← asObjD report "Source"
  let reportClass ← pyLowerD report "ReportClass"
  let category := (categoryMap.lookup reportClass).getD "other"
  let reportType ← pyLowerD report "ReportType"
  let additional ← asObjD report "AdditionalInfo"
  let evidenceSource ← mapEvidenceSource (additional.get "DetectionMethod")
  let timestamp := match report.getTruthy "Date" with
    | some v => v
    | none => .str now
  let contact := match reporterInfo.getTruthy "ReporterOrgEmail" with
    | some v => v
    | none =>
      match reporterInfo.getTruthy "ReporterContactEmail" with
      | some v => v
      | none => .str "unknown@example.com"
  let v4 : Doc :=
    [("xarf_version", .str "4.0.0"),
     ("report_id", .str freshId),
     ("timestamp", timestamp),
     ("reporter", .obj
       [("org", reporterInfo.getD "ReporterOrg" (.str "Unknown")),
        ("contact", contact),
        ("type", .str "automated")]),
     ("source_identifier", source.getD "IP" (.str "0.0.0.0")),
     ("category", .str category),
     ("type", .str reportType),
     ("evidence_source", .str evidenceSource),
     ("legacy_version", .str "3"),
     ("_internal", .obj
       [("converted_from_v3", .bool true),
        ("original_version", (v3.get "Version").getD .null)])]
  let attachments := report.getD "Attachment" (.arr [])
  let v4 ← attachStep v4 attachments
  let v4 ← categoryStep category v4 report source additional
  let rc := (report.getD "ReportClass" .null).pyStr
  let rt := (report.getD "ReportType" .null).pyStr
  let tags :=
    (if (report.getTruthy "ReportClass").isSome then
      [Json.str s!"legacy:category:{rc}"]
     else [])
    ++ (if (report.getTruthy "ReportType").isSome then
      [Json.str s!"legacy:type:{rt}"]
     else [])
  let v4 := if !tags.isEmpty then v4.set "tags" (.arr tags) else v4
  pure (v4, warns)

/-! ## Report model construction (`models.py`)

Pydantic model construction either returns the validated object or raises a
`pydantic.ValidationError`; it is embedded as `Except String Report`. Field
constraints follow `models.py`; numbers are the integer approximation of the
float fields (no claim exercises fractional values). -/

/-- The `xarf_version` field pattern from `models.py`
(`^4\.[0-9]+\.[0-9]+$`). -/
def matchesV4Pattern (s : String) : Bool :=
  match pySplitOn s "." with
  | [a, b, c] =>
    a == "4" && !b.isEmpty && b.data.all Char.isDigit
      && !c.isEmpty && c.data.all Char.isDigit
  | _ => false

/-- The `hash` field pattern of an evidence item
(`^(md5|sha1|sha256|sha512):[a-fA-F0-9]+$`). -/
def matchesHashPattern (s : String) : Bool :=
  match pySplitOn s ":" with
  | [alg, hex] =>
    (alg == "md5" || alg == "sha1" || alg == "sha256" || alg == "sha512")
      && !hex.isEmpty
      && hex.all fun ch =>
        ch.isDigit || ('a' ≤ ch && ch ≤ 'f') || ('A' ≤ ch && ch ≤ 'F')
  | _ => false

/-- An optional string field: absent, `None`, or a string. -/
def optStrOk (d : Doc) (k : String) : Bool :=
  match d.get k with
  | none => true
  | some .null => true
  | some (.str _) => true
  | some _ => false

/-- An optional bounded-length string field. -/
def optStrLenOk (d : Doc) (k : String) (maxLen : Nat) : Bool :=
  match d.get k with
  | none => true
  | some .null => true
  | some (.str s) => s.length ≤ maxLen
  | some _ => false

/-- An optional integer field with optional bounds. -/
def optNumOk (d : Doc) (k : String) (lo hi : Option Int) : Bool :=
  match d.get k with
  | none => true
  | some .null => true
  | some (.num n) =>
    (match lo with | some l => l ≤ n | none => true)
      && (match hi with | some h => n ≤ h | none => true)
  | some _ => false

/-- An optional list-of-strings field. -/
def optStrListOk (d : Doc) (k : String) : Bool :=
  match d.get k with
  | none => true
  | some .null => true
  | some (.arr xs) => xs.all fun x => match x with | .str _ => true | _ => false
  | some _ => false

/-- `ContactInfo(**v)`: required non-missing string `org` (length ≤ 200),
`contact`, `domain`; `extra="forbid"`. -/
def contactOk (v : Json) : Bool :=
  match v with
  | .obj o =>
    (o.all fun kv => kv.1 == "org" || kv.1 == "contact" || kv.1 == "domain")
      && (match Doc.get o "org" with
          | some (.str s) => s.length ≤ 200
          | _ => false)
      && (match Doc.get o "contact" with | some (.str _) => true | _ => false)
      && (match Doc.get o "domain" with | some (.str _) => true | _ => false)
  | _ => false

/-- `XARFEvidence(**v)`: required `content_type`/`payload` strings; optional
`description` (≤ 500), `hash` (pattern), `size` (0..5242880);
`extra="forbid"`. -/
def evidenceItemOk (v : Json) : Bool :=
  match v with
  | .obj o =>
    (o.all fun kv =>
      kv.1 == "content_type" || kv.1 == "payload" || kv.1 == "description"
        || kv.1 == "hash" || kv.1 == "size")
      && (match Doc.get o "content_type" with
          | some (.str _) => true | _ => false)
      && (match Doc.get o "payload" with | some (.str _) => true | _ => false)
      && optStrLenOk o "description" 500
      && (match Doc.get o "hash" with
          | none => true
          | some .null => true
          | some (.str h) => matchesHashPattern h
          | some _ => false)
      && optNumOk o "size" (some 0) (some 5242880)
  | _ => false

/-- The required/base fields of `XARFReport` (`extra="allow"`, so unknown
keys pass through). -/
def baseModelOk (d : Doc) : Bool :=
  (match d.get "xarf_version" with
   | some (.str v) => matchesV4Pattern v
   | _ => false)
  && (match d.get "report_id" with | some (.str _) => true | _ => false)
  -- timestamp is Union[datetime, str]: any string passes, and pydantic lax
  -- mode also accepts a number (unix epoch) for the datetime half
  && (match d.get "timestamp" with
      | some (.str _) => true | some (.num _) => true | _ => false)
  && (match d.get "reporter" with | some v => contactOk v | none => false)
  && (match d.get "sender" with | some v => contactOk v | none => false)
  && (match d.get "source_identifier" with
      | some (.str _) => true | _ => false)
  && (match d.get "category" with | some (.str _) => true | _ => false)
  && (match d.get "type" with | some (.str _) => true | _ => false)
  && optStrOk d "evidence_source"
  && optNumOk d "source_port" (some 1) (some 65535)
  && (match d.get "evidence" with
      | none => true
      | some .null => true
      | some (.arr xs) => xs.all evidenceItemOk
      | some _ => false)
  && optNumOk d "confidence" (some 0) (some 1)
  && optStrListOk d "tags"
  && optStrLenOk d "description" 1000
  && (match d.get "on_behalf_of" with
      | none => true
      | some .null => true
      | some v => contactOk v)
  && optStrOk d "legacy_version"

/-- `MessagingReport` extra optional fields. -/
def messagingFieldsOk (d : Doc) : Bool :=
  optStrOk d "protocol" && optStrOk d "smtp_from" && optStrOk d "smtp_to"
    && optStrOk d "subject" && optStrOk d "message_id"
    && optStrOk d "sender_display_name" && optStrOk d "target_victim"
    && optStrOk d "message_content"

/-- `ConnectionReport` extra optional fields. -/
def connectionFieldsOk (d : Doc) : Bool :=
  optStrOk d "destination_ip"
    && optNumOk d "destination_port" (some 1) (some 65535)
    && optStrOk d "protocol" && optStrOk d "attack_type"
    && optNumOk d "duration_minutes" none none
    && optNumOk d "packet_count" none none
    && optNumOk d "byte_count" none none
    && optNumOk d "attempt_count" none none
    && optNumOk d "successful_logins" none none
    && optStrListOk d "usernames_attempted" && optStrOk d "attack_pattern"

/-- `ContentReport` extra optional fields. -/
def contentFieldsOk (d : Doc) : Bool :=
  optStrOk d "url" && optStrOk d "content_type" && optStrOk d "attack_type"
    && optStrListOk d "affected_pages" && optStrOk d "cms_platform"
    && optStrOk d "vulnerability_exploited"
    && optStrListOk d "affected_parameters" && optStrOk d "payload_detected"
    && optStrListOk d "data_exposed" && optStrOk d "database_type"
    && optNumOk d "records_potentially_affected" none none

/-- A successfully constructed report object: the variant selected by the
parser plus the raw (extra-fields-preserving) document. -/
structure Report where
  variant : String
  data : Doc
deriving DecidableEq

/-- Model construction for a given variant: validate the base fields plus any
variant-specific typed fields, or raise (as `.error`). -/
def mkModel (variant : String) (d : Doc) : Except String Report :=
  let extraOk :=
    if variant = "messaging" then messagingFieldsOk d
    else if variant = "connection" then connectionFieldsOk d
    else if variant = "content" then contentFieldsOk d
    else true
  if baseModelOk d && extraOk then .ok ⟨variant, d⟩
  else .error s!"validation error for {variant} report model"

/-! ## `XARFParser.parse` (`parser.py`) -/

/-- `XARFParser.parse`: decode, convert a legacy document, run the structural
pre-check (failing immediately only in strict mode), then dispatch model
construction on the category. In the lenient unrecognized-category branch the
base-model construction sits outside the `try` block, so a construction
failure escapes as the raw `pydantic.ValidationError` (`.modelError`),
whereas in the recognized-category branch it is wrapped into
`XARFParseError` naming the category. -/
def parse (view : RegistryView) (iso : String → Bool)
    (jp : String → Except String Json) (strict : Bool)
    (freshId now : String) (input : String ⊕ Json) : Except PyErr Report := do
  let data ← match input with
    | .inl s =>
      match jp s with
      | .ok j => pure j
      | .error e => throw (.parseError s!"Invalid JSON: {e}")
    | .inr j => pure j
  let d ← match data with
    | .obj o => pure o
    | _ => throw .attributeError
  let d ←
    if isV3Report d then
      match convertV3 d freshId now with
      | .ok (d2, _) => pure d2
      | .error _ => throw (.parseError "Failed to convert XARF v3 report")
    else pure d
  let vs ← validateStructure view iso d
  if !vs.1 && strict then
    throw (.validationError "Validation failed" vs.2)
  let catRaw := d.get "category"
  let catJ := match d.getTruthy "category" with
    | some v => v
    | none => .str ""
  if catJ ∉ view.categories then
    if strict then
      throw (.validationError s!"Invalid category" [])
    else
      match mkModel "base" d with
      | .ok r => pure r
      | .error e => throw (.modelError e)
  else
    let variant :=
      if catRaw = some (.str "messaging") then "messaging"
      else if catRaw = some (.str "connection") then "connection"
      else if catRaw = some (.str "content") then "content"
      else "base"
    let catName := match catRaw with
      | some v => v.pyStr
      | none => "None"
    match mkModel variant d with
    | .ok r => pure r
    | .error e => throw (.parseError s!"Failed to parse {catName} report: {e}")

/-! ## Report generator (`generator.py`) -/

/-- `XARFGenerator.XARF_VERSION`. -/
def generatorXarfVersion : String := "4.0.0"

/-- `XARFGenerator._validate_contact_info`: the first registry
contact-required field that is absent or falsy, if any. -/
def badContactField (view : RegistryView) (contact : Doc) : Option String :=
  view.contactRequired.find? fun f => (contact.getTruthy f).isNone

/-- `XARFGenerator.generate_report` with the fresh uuid and current timestamp
passed explicitly. Optional arguments mirror the Python keyword arguments
(all default to `None` at call sites modelled here); `confidence` is the
integer approximation of the float parameter. -/
def generateReport (view : RegistryView) (freshId now : String)
    (category reportType sourceIdentifier : String)
    (reporter sender : Doc)
    (evidenceSource description : Option String)
    (evidence : Option (List Json)) (confidence : Option Int)
    (tags : Option (List Json)) (additionalFields : Option Doc) :
    Except PyErr Doc := do
  if sourceIdentifier.isEmpty then
    throw (.xarfError "source_identifier is required")
  match badContactField view reporter with
  | some f => throw (.xarfError s!"reporter.{f} is required")
  | none => pure ()
  match badContactField view sender with
  | some f => throw (.xarfError s!"sender.{f} is required")
  | none => pure ()
  if (Json.str category) ∉ view.categories then
    throw (.xarfError s!"Invalid category {category}")
  if (Json.str reportType) ∉ view.typesFor (.str category) then
    throw (.xarfError s!"Invalid type {reportType} for category {category}")
  match evidenceSource with
  | some es =>
    if !view.evidenceSources.isEmpty && (Json.str es) ∉ view.evidenceSources
    then throw (.xarfError s!"Invalid evidence_source {es}")
    else pure ()
  | none => pure ()
  match confidence with
  | some c =>
    if !(0 ≤ c && c ≤ 1) then
      throw (.xarfError "confidence must be between 0.0 and 1.0")
    else pure ()
  | none => pure ()
  let repContact ← match reporter.get "org", reporter.get "contact",
      reporter.get "domain" with
    | some o, some c, some dm =>
      pure (Json.obj [("org", o), ("contact", c), ("domain", dm)])
    | _, _, _ => throw (.keyError "reporter")
  let sndContact ← match sender.get "org", sender.get "contact",
      sender.get "domain" with
    | some o, some c, some dm =>
      pure (Json.obj [("org", o), ("contact", c), ("domain", dm)])
    | _, _, _ => throw (.keyError "sender")
  let report : Doc :=
    [("xarf_version", .str generatorXarfVersion),
     ("report_id", .str freshId),
     ("timestamp", .str now),
     ("reporter", repContact),
     ("sender", sndContact),
     ("source_identifier", .str sourceIdentifier),
     ("category", .str category),
     ("type", .str reportType)]
  let report := match evidenceSource with
    | some es => if !es.isEmpty then report.set "evidence_source" (.str es)
        else report
    | none => report
  let report := match description with
    | some ds => if !ds.isEmpty then report.set "description" (.str ds)
        else report
    | none => report
  let report := match evidence with
    | some ev => if !ev.isEmpty then report.set "evidence" (.arr ev) else report
    | none => report
  let report := match confidence with
    | some c => report.set "confidence" (.num c)
    | none => report
  let report := match tags with
    | some ts => if !ts.isEmpty then report.set "tags" (.arr ts) else report
    | none => report
  let report := match additionalFields with
    | some af => af.foldl (fun acc kv => acc.set kv.1 kv.2) report
    | none => report
  pure report

/-! ## Schema registry construction (`schema_registry.py`, `schema_utils.py`) -/

/-- `j.get(k)` when a schema node is a dict; a non-dict node yields `none`
(in Python a schema file whose root is not a JSON object would raise at the
first attribute access — no claim depends on that corner, the bundled schema
roots are objects). -/
def jGet (j : Json) (k : String) : Option Json :=
  match j with
  | .obj o => Doc.get o k
  | _ => none

/-- `j.get(k, default)` on a schema node. -/
def jGetD (j : Json) (k : String) (v : Json) : Json :=
  (jGet j k).getD v

/-- `parse_type_schema_filename` (`schema_utils.py`): strip `.json`, split on
the first hyphen; `none` models the `XARFSchemaError` paths. -/
def parseTypeSchemaFilename (filename : String) : Option (String × String) :=
  if strEndsWith filename ".json" then
    let name := filename.dropRight 5
    match pySplitOn name "-" with
    | [] => none
    | [_] => none
    | c :: rest => some (c, String.intercalate "-" rest)
  else none

/-- The in-memory registry state after `_load_schemas`. -/
structure SchemaRegistry where
  coreSchema : Option Json
  typeSchemas : List (String × Json)
deriving DecidableEq

/-- The outcome of locating and reading the schema bundle: `.failure` models
`get_v4_schemas_directory` or the core-schema load raising `XARFSchemaError`;
`.success` carries the core schema and the type-schema directory listing with
each file's load outcome (a listing failure behaves like an empty listing:
`_scan_type_schemas` swallows it and leaves no type schemas). -/
inductive SchemaLoad where
  | failure
  | success (core : Json) (typeFiles : List (String × Except Unit Json))

/-- `_scan_type_schemas`: skip `-base.json` fragments, skip files whose name
does not parse or whose load raises, key the rest as `category/type`. -/
def scanTypeSchemas (files : List (String × Except Unit Json)) :
    List (String × Json) :=
  files.foldl
    (fun acc kv =>
      if strContains kv.1 "-base.json" then acc
      else
        match parseTypeSchemaFilename kv.1, kv.2 with
        | some ct, .ok schema => acc ++ [(s!"{ct.1}/{ct.2}", schema)]
        | _, _ => acc)
    []

/-- `SchemaRegistry.__init__` / `_load_schemas`: the `except XARFSchemaError`
handler makes a failed load produce the degraded registry instead of
propagating, so construction never throws. -/
def buildRegistry : SchemaLoad → SchemaRegistry
  | .failure => ⟨none, []⟩
  | .success core files => ⟨some core, scanTypeSchemas files⟩

/-- `get_categories`: the category enum of the core schema (`set()` when the
schema is missing or falsy). -/
def SchemaRegistry.getCategories (r : SchemaRegistry) : List Json :=
  match r.coreSchema with
  | some core =>
    if core.truthy then
      match jGetD (jGetD (jGetD core "properties" (.obj []))
          "category" (.obj [])) "enum" (.arr []) with
      | .arr xs => xs.dedup
      | _ => []
    else []
  | none => []

/-- `is_valid_category`. -/
def SchemaRegistry.isValidCategory (r : SchemaRegistry) (c : Json) : Bool :=
  decide (c ∈ r.getCategories)

/-- One step of `_build_types_cache`: record a normalized type under its
category (sets are modelled as first-occurrence lists). -/
def addTypeToCache (acc : List (String × List String)) (c t : String) :
    List (String × List String) :=
  if (acc.lookup c).isSome then
    acc.map fun e =>
      if e.1 = c then (e.1, if t ∈ e.2 then e.2 else e.2 ++ [t]) else e
  else acc ++ [(c, [t])]

/-- `_build_types_cache`: group the scanned `category/type` keys by category,
normalizing hyphens in the type segment to underscores. -/
def SchemaRegistry.typesCache (r : SchemaRegistry) :
    List (String × List String) :=
  r.typeSchemas.foldl
    (fun acc kv =>
      match pySplitOn kv.1 "/" with
      | [c, t] => addTypeToCache acc c (pyReplace t "-" "_")
      | _ => acc)
    []

/-- `get_types_for_category`: cache lookup with empty-set default. -/
def SchemaRegistry.getTypesForCategory (r : SchemaRegistry) (c : String) :
    List String :=
  (r.typesCache.lookup c).getD []

/-- `is_loaded`. -/
def SchemaRegistry.isLoaded (r : SchemaRegistry) : Bool :=
  r.coreSchema.isSome

/-! ## Theorems -/

/-- Claim C5: the legacy-format detector returns true exactly when the
document has the top-level key `Version` and lacks the top-level key
`xarf_version`; in particular a document containing `xarf_version` is never
detected as legacy. -/
theorem claim_c5_legacy_detection (d : Doc) :
    isV3Report d = true ↔
      ("Version" ∈ d.keys ∧ "xarf_version" ∉ d.keys) := by
  have hmem : ∀ k : String, d.hasKey k = true ↔ k ∈ d.keys := by
    intro k
    simp [Doc.hasKey, Doc.keys, List.any_eq_true]
  simp only [isV3Report, Bool.and_eq_true, Bool.not_eq_true', ← hmem,
    Bool.not_eq_true]

/-- The legacy spam document of the conversion scenario. -/
def c6V3Doc : Doc :=
  [("Version", .str "3.0.0"),
   ("ReporterInfo", .obj
     [("ReporterOrg", .str "Acme"),
      ("ReporterOrgEmail", .str "abuse@acme.example")]),
   ("Report", .obj
     [("ReportClass", .str "Messaging"),
      ("ReportType", .str "spam"),
      ("Date", .str "2024-01-15T14:30:25Z"),
      ("Source", .obj [("IP", .str "192.168.1.100")]),
      ("AdditionalInfo", .obj
        [("Protocol", .str "smtp"),
         ("SMTPFrom", .str "spammer@example.com"),
         ("Subject", .str "Test Spam"),
         ("DetectionMethod", .str "spamtrap")])])]

/-- Claim C6: converting the legacy spam scenario document yields
category `messaging`, type `spam`, source identifier `192.168.1.100`,
evidence source `spamtrap`, protocol `smtp`, smtp_from
`spammer@example.com`, and exactly one deprecation signal is emitted. -/
theorem claim_c6_conversion_scenario :
    (convertV3 c6V3Doc "f47ac10b-58cc-4372-a567-0e02b2c3d479"
        "2025-01-01T00:00:00Z").map
        (fun p => (Doc.get p.1 "category", Doc.get p.1 "type",
          Doc.get p.1 "source_identifier", Doc.get p.1 "evidence_source",
          Doc.get p.1 "protocol", Doc.get p.1 "smtp_from", p.2.length))
      = .ok (some (.str "messaging"), some (.str "spam"),
          some (.str "192.168.1.100"), some (.str "spamtrap"),
          some (.str "smtp"), some (.str "spammer@example.com"), 1) := by
  rfl

/-- Strict promotion inside `validateDoc`: warnings are cleared and appended
(as errors, with identical field/message/value records) after the
deduplicated error list of the non-strict run. -/
theorem validateDoc_strict_spec (view : RegistryView)
    (sv : Option (Doc → List VDiag)) (iso : String → Bool) (d : Doc)
    (showOpt : Bool) :
    (validateDoc view sv iso d true showOpt).warnings = [] ∧
    (validateDoc view sv iso d true showOpt).errors =
      (validateDoc view sv iso d false showOpt).errors ++
        (validateDoc view sv iso d false showOpt).warnings := by
  unfold validateDoc
  by_cases h : (collectedWarns view d).isEmpty
  · have hnil : collectedWarns view d = [] := by
      simpa [List.isEmpty_iff] using h
    simp [h, hnil]
  · simp [h]

/-- Claim C1: with `strict_override` set, every collected warning is promoted
to an error with the same field, message and value, the returned warning list
is empty, and `valid` equals "errors empty" computed after the promotion. -/
theorem claim_c1_strict_promotion (view : RegistryView)
    (sv : Option (Doc → List VDiag)) (iso : String → Bool)
    (jp : String → Except String Json) (input : String ⊕ Json)
    (r rs : ValidationResult)
    (h : validate view sv iso jp input false false = .ok r)
    (hs : validate view sv iso jp input true false = .ok rs) :
    rs.warnings = [] ∧ rs.errors = r.errors ++ r.warnings ∧
      rs.valid = rs.errors.isEmpty := by
  have main : ∀ d : Doc,
      rs = validateDoc view sv iso d true false →
      r = validateDoc view sv iso d false false →
      rs.warnings = [] ∧ rs.errors = r.errors ++ r.warnings ∧
        rs.valid = rs.errors.isEmpty := by
    intro d hrs hr
    obtain ⟨hw, he⟩ := validateDoc_strict_spec view sv iso d false
    refine ⟨hrs ▸ hw, by rw [hrs, hr]; exact he, ?_⟩
    rw [hrs]
    unfold validateDoc
    simp
  match input with
  | .inl s =>
    match hjp : jp s with
    | .error e =>
      simp only [validate, hjp] at h hs
      obtain rfl : r = _ := (Except.ok.injEq _ _).mp h.symm
      obtain rfl : rs = _ := (Except.ok.injEq _ _).mp hs.symm
      simp
    | .ok (.obj d) =>
      simp only [validate, hjp] at h hs
      exact main d ((Except.ok.injEq _ _).mp hs.symm)
        ((Except.ok.injEq _ _).mp h.symm)
    | .ok .null | .ok (.bool _) | .ok (.num _) | .ok (.str _)
    | .ok (.arr _) =>
      simp [validate, hjp] at h
  | .inr (.obj d) =>
    simp only [validate] at h hs
    exact main d ((Except.ok.injEq _ _).mp hs.symm)
      ((Except.ok.injEq _ _).mp h.symm)
  | .inr .null | .inr (.bool _) | .inr (.num _) | .inr (.str _)
  | .inr (.arr _) =>
    simp [validate] at h

/-- A registry view with nothing registered, for concrete witnesses. -/
def trivView : RegistryView :=
  { categories := []
    typesFor := fun _ => []
    evidenceSources := []
    requiredFields := []
    contactRequired := []
    coreProps := []
    categoryFields := fun _ _ => []
    optionalInfo := fun _ _ => [] }

/-- A concrete stand-in for `json.loads`: decodes the text `5` to the number
5 (as `json.loads` does) and reports everything else malformed. -/
def jpFive : String → Except String Json :=
  fun s => if s = "5" then .ok (.num 5) else .error "Expecting value"

theorem claim_c1_strict_promotion_witness :
    ∃ r rs,
      validate trivView none (fun _ => true) jpFive (.inl "x") false false
        = .ok r ∧
      validate trivView none (fun _ => true) jpFive (.inl "x") true false
        = .ok rs ∧
      (rs.warnings = [] ∧ rs.errors = r.errors ++ r.warnings ∧
        rs.valid = rs.errors.isEmpty) :=
  ⟨_, _, rfl, rfl,
    claim_c1_strict_promotion trivView none (fun _ => true) jpFive
      (.inl "x") _ _ rfl rfl⟩

/-- Counterexample to claim C2: `"5"` is a well-formed JSON string (decoding
to the integer 5, not a dict), and on it `validate` raises — in the source,
`SchemaValidator.validate` calls `report.get("category")` on the int (and with
schema validation disabled, `_validate_required_fields` runs `in` on it) —
instead of returning a `ValidationResult`. -/
theorem claim_c2_counterexample :
    validate trivView none (fun _ => true) jpFive (.inl "5") false false
      = .error .attributeError := by
  rfl

/-- Claim C2 (amended): `validate` never raises and returns a structured
`ValidationResult` for every input that is a malformed JSON string, a string
decoding to a JSON object, or a dict; a malformed JSON string yields
`valid = false` with a single error on the root sentinel `$root`. (A
well-formed JSON string decoding to a non-object raises, see the
counterexample.) -/
theorem claim_c2_validate_total (view : RegistryView)
    (sv : Option (Doc → List VDiag)) (iso : String → Bool)
    (jp : String → Except String Json) (strict showOpt : Bool) :
    (∀ s e, jp s = .error e →
      validate view sv iso jp (.inl s) strict showOpt =
        .ok ⟨false, [⟨"$root", s!"Invalid JSON: {e}", .null⟩], [], none⟩)
    ∧ (∀ s d, jp s = .ok (.obj d) →
      validate view sv iso jp (.inl s) strict showOpt =
        .ok (validateDoc view sv iso d strict showOpt))
    ∧ (∀ d : Doc,
      validate view sv iso jp (.inr (.obj d)) strict showOpt =
        .ok (validateDoc view sv iso d strict showOpt)) := by
  refine ⟨fun s e h => ?_, fun s d h => ?_, fun d => rfl⟩
  · simp [validate, h]
  · simp [validate, h]

theorem claim_c2_validate_total_witness :
    validate trivView none (fun _ => true) jpFive (.inl "nope") false false
      = .ok ⟨false, [⟨"$root", "Invalid JSON: Expecting value", .null⟩],
          [], none⟩ :=
  (claim_c2_validate_total trivView none (fun _ => true) jpFive
      false false).1 "nope" "Expecting value" rfl

/-- Counterexample to claim C3: `"4.1.0"` matches `^4\.[0-9]+\.[0-9]+$`, yet
the structural version check of `validate_structure` records an
unsupported-version error for it (the code compares against the literal
`"4.0.0"`, not against the pattern). -/
theorem claim_c3_counterexample :
    matchesV4Pattern "4.1.0" = true ∧
    validateStructure trivView (fun _ => true)
        [("xarf_version", .str "4.1.0")]
      = .ok (false, [.unsupportedVersion (some (.str "4.1.0"))]) :=
  ⟨rfl, rfl⟩

/-- Claim C3 (amended): on any document that passes the required-fields stage,
the structural version check accepts exactly the string `"4.0.0"` (itself a
match of `^4\.[0-9]+\.[0-9]+$`): with that value no unsupported-version error
is ever recorded, and with any other value — including other strings matching
the pattern, and every value not matching it — `validate_structure` records
an unsupported-version error and fails. -/
theorem claim_c3_version_check (view : RegistryView) (iso : String → Bool)
    (d : Doc) (hreq : ∀ f ∈ view.requiredFields, d.hasKey f = true) :
    matchesV4Pattern "4.0.0" = true
    ∧ (d.get "xarf_version" = some (.str "4.0.0") →
      ∀ ok errs, validateStructure view iso d = .ok (ok, errs) →
        ∀ e ∈ errs, ∀ v, e ≠ .unsupportedVersion v)
    ∧ (d.get "xarf_version" ≠ some (.str "4.0.0") →
      validateStructure view iso d =
        .ok (false, [.unsupportedVersion (d.get "xarf_version")])) := by
  have hfilter : view.requiredFields.filter (fun f => !d.hasKey f) = [] := by
    rw [List.filter_eq_nil_iff]
    intro f hf
    simp [hreq f hf]
  refine ⟨rfl, ?_, ?_⟩
  · intro hv ok errs hrun e he v
    unfold validateStructure categoryTypeCheck at hrun
    rw [hfilter] at hrun
    rw [if_neg (by simp)] at hrun
    rw [if_neg (by simp [hv])] at hrun
    repeat' split at hrun
    all_goals try simp_all
    all_goals (repeat' split at hrun)
    all_goals try simp_all
    all_goals
      (obtain ⟨h1, h2⟩ := hrun
       subst h2
       simp at he
       try subst he
       simp)
  · intro hv
    unfold validateStructure
    rw [hfilter]
    simp [hv]

theorem claim_c3_version_check_witness :
    matchesV4Pattern "4.0.0" = true ∧
    validateStructure trivView (fun _ => true)
        [("xarf_version", .str "3.0.0")]
      = .ok (false, [.unsupportedVersion (some (.str "3.0.0"))]) := by
  obtain ⟨h1, -, h3⟩ := claim_c3_version_check trivView (fun _ => true)
    [("xarf_version", .str "3.0.0")] (by intro f hf; simp [trivView] at hf)
  exact ⟨h1, h3 (by decide)⟩

/-- The diagnostics on a given field path. -/
def diagsOn (l : List VDiag) (f : String) : List VDiag :=
  l.filter fun e => e.field == f

/-- A truthy `get` implies key presence. -/
theorem Doc.getTruthy_hasKey {d : Doc} {k : String} {v : Json}
    (h : d.getTruthy k = some v) : d.hasKey k = true := by
  unfold Doc.getTruthy at h
  unfold Doc.hasKey
  cases hget : d.get k with
  | none => simp [hget] at h
  | some w =>
    unfold Doc.get at hget
    cases hf : d.find? (fun kv => kv.1 == k) with
    | none => simp [hf] at hget
    | some kv =>
      have := List.find?_some hf
      have hmem := List.mem_of_find?_eq_some hf
      rw [List.any_eq_true]
      exact ⟨kv, hmem, this⟩

/-- Deduplication never invents diagnostics. -/
theorem mem_dedupErrs {e : VDiag} :
    ∀ {l : List VDiag} {seen : List (String × String)},
      e ∈ dedupErrs l seen → e ∈ l
  | [], _, h => by simp [dedupErrs] at h
  | x :: xs, seen, h => by
    unfold dedupErrs at h
    split at h
    · exact .tail _ (mem_dedupErrs h)
    · rcases List.mem_cons.mp h with rfl | h2
      · exact .head _
      · exact .tail _ (mem_dedupErrs h2)

/-- `pre ++ "." ++ f` never collides with a bare top-level field name such as
`evidence_source`. -/
theorem reporter_dot_ne (pre f : String)
    (hp : pre = "reporter" ∨ pre = "sender") :
    pre ++ "." ++ f ≠ "evidence_source" := by
  rcases hp with rfl | rfl
  · intro h
    have h2 : ("reporter." ++ f).data = "evidence_source".data :=
      congrArg String.data h
    obtain ⟨fd⟩ := f
    simp [String.data] at h2
  · intro h
    have h2 : ("sender." ++ f).data = "evidence_source".data :=
      congrArg String.data h
    obtain ⟨fd⟩ := f
    simp [String.data] at h2

/-- The hand-written error passes put no error on the `evidence_source`
field: required-field errors concern absent keys, format errors concern
`timestamp` and dotted contact paths, value errors concern `category` and
`type`, and the messaging rule concerns `smtp_from`. -/
theorem handwritten_errs_not_evidence (view : RegistryView)
    (iso : String → Bool) (d : Doc)
    (hpresent : d.hasKey "evidence_source" = true) :
    ∀ e ∈ collectedErrs view none iso d, e.field ≠ "evidence_source" := by
  intro e he
  unfold collectedErrs at he
  simp only [List.mem_append] at he
  rcases he with ((⟨he | he⟩ | he) | he) | he
  · -- schema pass disabled
    simp at he
  · -- required fields
    unfold requiredFieldErrs at he
    rw [List.mem_filterMap] at he
    obtain ⟨f, -, hf⟩ := he
    split at hf
    · simp at hf
    case _ hk =>
      obtain rfl : e = _ := by simpa using hf.symm
      intro hfield
      have hf2 : f = "evidence_source" := hfield
      rw [hf2] at hk
      exact hk hpresent
  · -- format errors
    unfold formatErrs at he
    simp only [List.mem_append] at he
    have hcontact : ∀ (c : Doc) (pre : String),
        pre = "reporter" ∨ pre = "sender" →
        e ∈ contactInfoErrs view c pre → e.field ≠ "evidence_source" := by
      intro c pre hpre hmem
      unfold contactInfoErrs at hmem
      rw [List.mem_filterMap] at hmem
      obtain ⟨f, -, hf⟩ := hmem
      split at hf
      · simp at hf
      · obtain rfl : e = _ := by simpa using hf.symm
        exact reporter_dot_ne pre f hpre
    rcases he with (he | he) | he
    · -- timestamp
      split at he
      · simp at he
      · split at he
        · simp at he
        · rw [List.mem_singleton] at he
          subst he
          simp
    · -- reporter contact
      split at he
      case _ rep _ => exact hcontact rep "reporter" (.inl rfl) he
      all_goals simp at he
    · -- sender contact
      split at he
      case _ snd _ => exact hcontact snd "sender" (.inr rfl) he
      all_goals simp at he
  · -- value errors
    unfold valueErrs at he
    simp only [List.mem_append] at he
    rcases he with he | he
    · split at he
      · simp at he
      · split at he
        · simp at he
        · rw [List.mem_singleton] at he
          subst he
          simp
    · split at he
      case _ c t _ _ =>
        split at he
        · simp at he
        · rw [List.mem_singleton] at he
          subst he
          simp
      all_goals simp at he
  · -- category-specific messaging rule
    unfold catSpecificErrs at he
    split at he
    · split at he
      · split at he
        · rw [List.mem_singleton] at he
          subst he
          simp
        · simp at he
      · simp at he
    · simp at he

/-- Claim C9: a truthy `evidence_source` value outside a non-empty registry
vocabulary draws exactly one warning on field `evidence_source` (whatever the
schema pass contributes); with an empty vocabulary no warning at all is
recorded on that field; and the hand-written passes (the schema-conformance
pass disabled) never record an *error* on field `evidence_source`. -/
theorem claim_c9_evidence_source_advisory (view : RegistryView)
    (sv : Option (Doc → List VDiag)) (iso : String → Bool) (d : Doc)
    (v : Json) (hv : d.getTruthy "evidence_source" = some v)
    (hcore : "evidence_source" ∈ view.coreProps) :
    (view.evidenceSources ≠ [] → v ∉ view.evidenceSources →
      (diagsOn (validateDoc view sv iso d false false).warnings
        "evidence_source").length = 1)
    ∧ (view.evidenceSources = [] →
      diagsOn (validateDoc view sv iso d false false).warnings
        "evidence_source" = [])
    ∧ diagsOn (validateDoc view none iso d false false).errors
        "evidence_source" = [] := by
  have hwarns : (validateDoc view sv iso d false false).warnings
      = collectedWarns view d := by
    simp [validateDoc]
  have hsplit : diagsOn (collectedWarns view d) "evidence_source"
      = diagsOn (evidenceWarns view d) "evidence_source"
        ++ diagsOn (catSpecificWarns d) "evidence_source"
        ++ diagsOn (unknownFieldWarns view d) "evidence_source" := by
    unfold collectedWarns diagsOn
    simp [List.filter_append]
  have hcat : diagsOn (catSpecificWarns d) "evidence_source" = [] := by
    unfold catSpecificWarns diagsOn
    repeat' split
    all_goals simp
  have hunknown : diagsOn (unknownFieldWarns view d) "evidence_source"
      = [] := by
    unfold diagsOn
    rw [List.filter_eq_nil_iff]
    intro w hw
    unfold unknownFieldWarns at hw
    rw [List.mem_filterMap] at hw
    obtain ⟨kv, -, hkv⟩ := hw
    split at hkv
    · simp at hkv
    case _ hknown =>
      obtain rfl : w = _ := by simpa using hkv.symm
      simp only [beq_iff_eq]
      intro hfield
      have hf2 : kv.1 = "evidence_source" := hfield
      rw [hf2] at hknown
      exact hknown (List.mem_append_left _ hcore)
  refine ⟨?_, ?_, ?_⟩
  · intro hne hnm
    rw [hwarns, hsplit, hcat, hunknown]
    unfold evidenceWarns diagsOn
    rw [hv]
    have hcond : (!view.evidenceSources.isEmpty
        && decide (v ∉ view.evidenceSources)) = true := by
      simp [hne, hnm, List.isEmpty_iff]
    simp only [hcond, if_true]
    simp
  · intro hempty
    rw [hwarns, hsplit, hcat, hunknown]
    unfold evidenceWarns diagsOn
    rw [hv]
    have hcond : (!view.evidenceSources.isEmpty
        && decide (v ∉ view.evidenceSources)) = false := by
      simp [hempty]
    simp only [hcond]
    simp
  · have herrs : (validateDoc view none iso d false false).errors
        = dedupErrs (collectedErrs view none iso d) [] := by
      simp [validateDoc]
    rw [herrs]
    unfold diagsOn
    rw [List.filter_eq_nil_iff]
    intro e he
    have hmem := mem_dedupErrs he
    have := handwritten_errs_not_evidence view iso d
      (Doc.getTruthy_hasKey hv) e hmem
    simpa using this

/-- A view with `evidence_source` registered as a core property and a small
evidence vocabulary, for concrete witnesses. -/
def evView : RegistryView :=
  { trivView with
    coreProps := ["evidence_source"]
    evidenceSources := [.str "spamtrap"] }

theorem claim_c9_evidence_source_advisory_witness :
    (diagsOn (validateDoc evView none (fun _ => true)
      [("evidence_source", .str "guesswork")] false false).warnings
      "evidence_source").length = 1
    ∧ diagsOn (validateDoc evView none (fun _ => true)
      [("evidence_source", .str "guesswork")] false false).errors
      "evidence_source" = [] := by
  obtain ⟨h1, -, h3⟩ := claim_c9_evidence_source_advisory evView none
    (fun _ => true) [("evidence_source", .str "guesswork")]
    (.str "guesswork") (by rfl) (by simp [evView])
  exact ⟨h1 (by simp [evView]) (by simp [evView]), h3⟩

/-- Association-list lookup misses every key outside the key column. -/
theorem lookup_none_of_not_mem {β : Type} (l : List (String × β)) (c : String)
    (h : c ∉ l.map Prod.fst) : l.lookup c = none := by
  induction l with
  | nil => rfl
  | cons kv rest ih =>
    simp only [List.map_cons, List.mem_cons, not_or] at h
    have hne : (c == kv.1) = false := by
      simp [h.1]
    obtain ⟨k, v⟩ := kv
    simp only [List.lookup]
    simp only at hne
    rw [hne]
    exact ih h.2

/-- Claim C7: a registry whose schema bundle failed to locate or parse is
constructed degraded rather than throwing — `is_loaded()` is false,
`get_categories()` is empty, `is_valid_category` rejects everything and
`get_types_for_category` is empty for every category; and in every registry
(loaded or not) `get_types_for_category` returns the empty set for a category
with no registered type schemas, without erroring. -/
theorem claim_c7_registry_degraded :
    (buildRegistry .failure).isLoaded = false
    ∧ (buildRegistry .failure).getCategories = []
    ∧ (∀ c : Json, (buildRegistry .failure).isValidCategory c = false)
    ∧ (∀ c : String, (buildRegistry .failure).getTypesForCategory c = [])
    ∧ (∀ (lr : SchemaLoad) (c : String),
        c ∉ ((buildRegistry lr).typesCache.map Prod.fst) →
        (buildRegistry lr).getTypesForCategory c = []) := by
  refine ⟨rfl, rfl, fun c => ?_, fun c => rfl, fun lr c h => ?_⟩
  · unfold SchemaRegistry.isValidCategory
    rw [show (buildRegistry SchemaLoad.failure).getCategories = [] from rfl]
    simp
  unfold SchemaRegistry.getTypesForCategory
  rw [lookup_none_of_not_mem _ _ h]
  rfl

theorem claim_c7_registry_degraded_witness :
    (buildRegistry (.success (.obj [])
        [("messaging-spam.json", .ok (.obj []))])).getTypesForCategory
      "connection" = [] :=
  claim_c7_registry_degraded.2.2.2.2
    (.success (.obj []) [("messaging-spam.json", .ok (.obj []))])
    "connection" (by decide)

/-- Dict assignment leaves every other key unchanged. -/
theorem Doc.get_set_ne (d : Doc) (k k' : String) (v : Json) (h : ¬k' = k) :
    Doc.get (Doc.set d k v) k' = Doc.get d k' := by
  induction d with
  | nil =>
    unfold Doc.set Doc.get
    have : (k == k') = false := by
      simp
      exact fun hh => h hh.symm
    simp [List.find?, this]
  | cons kv0 rest ih =>
    obtain ⟨k0, v0⟩ := kv0
    unfold Doc.set
    by_cases h0 : k0 = k
    · rw [if_pos h0]
      subst h0
      have : (k0 == k') = false := by
        simp
        exact fun hh => h hh.symm
      unfold Doc.get
      simp [List.find?, this]
    · rw [if_neg h0]
      unfold Doc.get at ih ⊢
      by_cases hk0 : k0 = k'
      · subst hk0
        simp [List.find?]
      · have : (k0 == k') = false := by simp [hk0]
        simp only [List.find?, this]
        exact ih

/-- `in` agrees with `get` presence. -/
theorem Doc.hasKey_eq_isSome (d : Doc) (k : String) :
    d.hasKey k = (Doc.get d k).isSome := by
  unfold Doc.hasKey Doc.get
  induction d with
  | nil => rfl
  | cons kv rest ih =>
    cases hp : (kv.1 == k) with
    | true => simp [List.find?, List.any_cons, hp]
    | false => simp only [List.find?, List.any_cons, hp, Bool.false_or]; exact ih

/-- Success of a monadic `Except` step decomposes. -/
theorem exceptBindOk {ε α β : Type} {x : Except ε α} {f : α → Except ε β}
    {r : β} (h : x >>= f = .ok r) : ∃ a, x = .ok a ∧ f a = .ok r := by
  cases x with
  | error e => exact absurd h (by simp [Bind.bind, Except.bind])
  | ok a => exact ⟨a, rfl, h⟩

/-- `_add_messaging_fields` touches only its five messaging keys. -/
theorem addMessagingFields_get (d a : Doc) (k : String)
    (h1 : ¬k = "protocol") (h2 : ¬k = "smtp_from") (h3 : ¬k = "subject")
    (h4 : ¬k = "smtp_to") (h5 : ¬k = "message_id") :
    (addMessagingFields d a).get k = d.get k := by
  unfold addMessagingFields
  split_ifs <;> simp [Doc.get_set_ne, h1, h2, h3, h4, h5]

/-- `_add_connection_fields` touches only its seven connection keys. -/
theorem addConnectionFields_get (d report source a : Doc) (k : String)
    (h1 : ¬k = "destination_ip") (h2 : ¬k = "protocol")
    (h3 : ¬k = "source_port") (h4 : ¬k = "destination_port")
    (h5 : ¬k = "attack_type") (h6 : ¬k = "packet_count")
    (h7 : ¬k = "byte_count") :
    (addConnectionFields d report source a).get k = d.get k := by
  unfold addConnectionFields
  split_ifs <;> simp [Doc.get_set_ne, h1, h2, h3, h4, h5, h6, h7]

/-- `_add_content_fields` touches only its three content keys. -/
theorem addContentFields_get (d report a : Doc) (k : String)
    (h1 : ¬k = "url") (h2 : ¬k = "content_type") (h3 : ¬k = "attack_type") :
    (addContentFields d report a).get k = d.get k := by
  unfold addContentFields
  split_ifs <;> simp [Doc.get_set_ne, h1, h2, h3]

/-- `_add_infrastructure_fields` touches only `tags`. -/
theorem addInfrastructureFields_get (d a out : Doc) (k : String)
    (h : addInfrastructureFields d a = .ok out) (hk : ¬k = "tags") :
    out.get k = d.get k := by
  unfold addInfrastructureFields at h
  simp only [bind, Except.bind, pure, Except.pure, throw, throwThe,
    MonadExceptOf.throw] at h
  repeat' split at h
  all_goals first
    | (simp only [Except.ok.injEq] at h
       subst h
       simp [Doc.get_set_ne, hk])
    | simp at h

/-- `Doc.get_set_ne` with the keys first, for use with `rw`. -/
theorem Doc.get_set_ne' (k k' : String) (h : ¬k' = k) (d : Doc) (v : Json) :
    Doc.get (Doc.set d k v) k' = Doc.get d k' :=
  Doc.get_set_ne d k k' v h

/-- The final optional `tags` assignment of `convert_v3_to_v4` leaves every
other key unchanged. -/
theorem tagsStep_get (k : String) (hk : ¬k = "tags") (v4 : Doc)
    (tags : List Json) :
    Doc.get (if (!tags.isEmpty) = true then v4.set "tags" (Json.arr tags)
      else v4) k = v4.get k := by
  split
  · exact Doc.get_set_ne _ _ _ _ hk
  · rfl

/-- `attachStep` touches only the `evidence` key. -/
theorem attachStep_get (v4 : Doc) (att : Json) (out : Doc) (k : String)
    (h : attachStep v4 att = .ok out) (hk : ¬k = "evidence") :
    out.get k = v4.get k := by
  unfold attachStep at h
  split at h
  · split at h
    · obtain ⟨ev, -, h⟩ := exceptBindOk h
      simp only [pure, Except.pure, Except.ok.injEq] at h
      subst h
      exact Doc.get_set_ne _ _ _ _ hk
    · simp at h
  · simp only [pure, Except.pure, Except.ok.injEq] at h
    subst h
    rfl

/-- `categoryStep` leaves the identification fields (`sender`, `reporter`)
unchanged: all four category helpers only add category-specific keys. -/
theorem categoryStep_get_sr (category : String)
    (v4 report source additional out : Doc) (k : String)
    (h : categoryStep category v4 report source additional = .ok out)
    (hk : k = "sender" ∨ k = "reporter") :
    out.get k = v4.get k := by
  unfold categoryStep at h
  rcases hk with rfl | rfl <;>
    (split_ifs at h <;>
      first
        | (simp only [pure, Except.pure, Except.ok.injEq] at h
           subst h
           first
             | exact addMessagingFields_get _ _ _ (by decide) (by decide)
                 (by decide) (by decide) (by decide)
             | exact addConnectionFields_get _ _ _ _ _ (by decide) (by decide)
                 (by decide) (by decide) (by decide) (by decide) (by decide)
             | exact addContentFields_get _ _ _ _ (by decide) (by decide)
                 (by decide)
             | rfl)
        | exact addInfrastructureFields_get _ _ _ _ h (by decide))

/-- Every successful v3→v4 conversion leaves out the `sender` key entirely
and builds a reporter object with keys `org`/`contact`/`type` only. -/
theorem convertV3_sender_reporter (v3 : Doc) (freshId now : String)
    (out : Doc) (ws : List String)
    (h : convertV3 v3 freshId now = .ok (out, ws)) :
    out.get "sender" = none
    ∧ ∃ org contact, out.get "reporter"
        = some (.obj [("org", org), ("contact", contact),
            ("type", .str "automated")]) := by
  unfold convertV3 at h
  obtain ⟨reporterInfo, hri, h⟩ := exceptBindOk h
  obtain ⟨report, hrp, h⟩ := exceptBindOk h
  obtain ⟨source, hsc, h⟩ := exceptBindOk h
  obtain ⟨reportClass, hrc, h⟩ := exceptBindOk h
  obtain ⟨reportType, hrt, h⟩ := exceptBindOk h
  obtain ⟨additional, had, h⟩ := exceptBindOk h
  obtain ⟨evidenceSource, hes, h⟩ := exceptBindOk h
  obtain ⟨v4a, h8, h⟩ := exceptBindOk h
  obtain ⟨v4b, h9, h⟩ := exceptBindOk h
  simp only [pure, Except.pure, Except.ok.injEq, Prod.mk.injEq] at h
  obtain ⟨hout, -⟩ := h
  have h8send : v4a.get "sender" = none := by
    rw [attachStep_get _ _ _ _ h8 (by decide)]
    rfl
  have h8rep : v4a.get "reporter" = some (.obj
      [("org", reporterInfo.getD "ReporterOrg" (Json.str "Unknown")),
       ("contact",
         match reporterInfo.getTruthy "ReporterOrgEmail" with
         | some v => v
         | none =>
           match reporterInfo.getTruthy "ReporterContactEmail" with
           | some v => v
           | none => Json.str "unknown@example.com"),
       ("type", Json.str "automated")]) := by
    rw [attachStep_get _ _ _ _ h8 (by decide)]
    rfl
  have h9send := categoryStep_get_sr _ _ _ _ _ _ _ h9 (.inl rfl)
  have h9rep := categoryStep_get_sr _ _ _ _ _ _ _ h9 (.inr rfl)
  constructor
  · rw [← hout]
    rw [tagsStep_get "sender" (by decide), h9send]
    exact h8send
  · refine ⟨reporterInfo.getD "ReporterOrg" (Json.str "Unknown"),
      (match reporterInfo.getTruthy "ReporterOrgEmail" with
       | some v => v
       | none =>
         match reporterInfo.getTruthy "ReporterContactEmail" with
         | some v => v
         | none => Json.str "unknown@example.com"), ?_⟩
    rw [← hout]
    rw [tagsStep_get "reporter" (by decide), h9rep]
    exact h8rep

/-- Claim C10: every successful v3→v4 conversion output lacks a top-level
`sender` key, its `reporter` sub-object lacks a `domain` key, and therefore
`validate_structure` fails on it whenever the registry requires `sender`
(the document also violates the reporter contact-field requirement, though
the fast-fail check reports the missing `sender` first). -/
theorem claim_c10_conversion_fails_v4_structure (v3 : Doc)
    (freshId now : String) (out : Doc) (ws : List String)
    (h : convertV3 v3 freshId now = .ok (out, ws)) :
    out.get "sender" = none
    ∧ (∃ rep : Doc, out.get "reporter" = some (.obj rep)
        ∧ Doc.get rep "domain" = none)
    ∧ ∀ (view : RegistryView) (iso : String → Bool),
        "sender" ∈ view.requiredFields →
        ∃ errs, validateStructure view iso out = .ok (false, errs) := by
  obtain ⟨hsend, org, contact, hrep⟩ :=
    convertV3_sender_reporter v3 freshId now out ws h
  refine ⟨hsend, ⟨_, hrep, rfl⟩, ?_⟩
  intro view iso hmem
  have hnk : out.hasKey "sender" = false := by
    rw [Doc.hasKey_eq_isSome, hsend]
    rfl
  have hin : "sender" ∈ view.requiredFields.filter (fun f => !out.hasKey f) := by
    rw [List.mem_filter]
    exact ⟨hmem, by rw [hnk]; rfl⟩
  have hne : view.requiredFields.filter (fun f => !out.hasKey f) ≠ [] :=
    List.ne_nil_of_mem hin
  refine ⟨[.missingRequired
    (view.requiredFields.filter (fun f => !out.hasKey f))], ?_⟩
  unfold validateStructure
  rw [if_pos (by simpa [List.isEmpty_iff] using hne)]

/-- A view requiring the eight v4 core fields, for concrete witnesses. -/
def reqView : RegistryView :=
  { trivView with
    requiredFields := ["xarf_version", "report_id", "timestamp", "reporter",
      "sender", "source_identifier", "category", "type"] }

theorem claim_c10_conversion_fails_v4_structure_witness :
    ∃ out ws, convertV3 c6V3Doc "id-1" "2025-01-01T00:00:00Z" = .ok (out, ws)
      ∧ out.get "sender" = none
      ∧ ∃ errs, validateStructure reqView (fun _ => true) out
          = .ok (false, errs) := by
  have hconv : ∃ out ws,
      convertV3 c6V3Doc "id-1" "2025-01-01T00:00:00Z" = .ok (out, ws) := by
    exact ⟨_, _, rfl⟩
  obtain ⟨out, ws, hc⟩ := hconv
  obtain ⟨hsend, -, hval⟩ :=
    claim_c10_conversion_fails_v4_structure c6V3Doc "id-1"
      "2025-01-01T00:00:00Z" out ws hc
  exact ⟨out, ws, hc, hsend, hval reqView (fun _ => true) (by simp [reqView])⟩

/-- Claim C8 (code bug): in the lenient unrecognized-category branch,
`parse` returns `XARFReport(**data)` *outside* the `try` block
(`parser.py` line 133), so a model-construction failure escapes as the raw
`pydantic.ValidationError` (`.modelError`) instead of the promised
`XARFParseError`; by contrast, in the recognized-category branch the same
failure is wrapped into a parse failure naming the category. -/
theorem claim_c8_lenient_branch_unwrapped :
    parse trivView (fun _ => true) (fun _ => .error "x") false "id-1"
        "2025-01-01T00:00:00Z" (.inr (.obj [("category", .str "bogus")]))
      = .error (.modelError "validation error for base report model")
    ∧ parse { trivView with categories := [.str "messaging"] }
        (fun _ => true) (fun _ => .error "x") false "id-1"
        "2025-01-01T00:00:00Z" (.inr (.obj [("category", .str "messaging")]))
      = .error (.parseError
          "Failed to parse messaging report: validation error for messaging report model") :=
  ⟨rfl, rfl⟩

/-- Modelled from the spec: the schema bundle (the `xarf/schemas` JSON files)
is not under `src/`. Per spec §4.2 the conformance pass always validates
against the core schema and, when `category` and `type` are present, against
the matching type schema; per spec §9 the bundled connection type schemas may
mark `destination_ip` as schema-required, and the repository's own test
helper (`tests/test_schema_validator.py`, "actual schema requirements") adds
`destination_ip` and `protocol` to make a connection/ddos document pass.
This function models the resulting conformance pass on connection/ddos
documents (the core-schema half contributes nothing on a document carrying
all eight core fields with well-formed values). -/
def ddosSchemaPass (d : Doc) : List VDiag :=
  if d.get "category" = some (.str "connection")
      ∧ d.get "type" = some (.str "ddos") then
    ["destination_ip", "protocol"].filterMap fun f =>
      if d.hasKey f then none
      else some ⟨"$root", s!"Missing required field(s): {f}", .null⟩
  else []

/-- A registry view mirroring the bundled schemas on the connection/ddos
slice, for the round-trip counterexample. -/
def view4 : RegistryView :=
  { categories := [.str "messaging", .str "connection", .str "content"]
    typesFor := fun c => if c = .str "connection" then [.str "ddos"] else []
    evidenceSources := [.str "spamtrap", .str "honeypot"]
    requiredFields := ["xarf_version", "report_id", "timestamp", "reporter",
      "sender", "source_identifier", "category", "type"]
    contactRequired := ["org", "contact", "domain"]
    coreProps := ["xarf_version", "report_id", "timestamp", "reporter",
      "sender", "source_identifier", "category", "type", "evidence_source",
      "source_port", "evidence", "confidence", "tags", "description",
      "on_behalf_of", "legacy_version", "_internal"]
    categoryFields := fun c t =>
      if c = .str "connection" ∧ t = .str "ddos" then
        ["destination_ip", "protocol", "source_port", "first_seen"]
      else []
    optionalInfo := fun _ _ => [] }

/-- Counterexample to claim C4: `connection`/`ddos` is a registry-valid
combination and both contacts carry non-empty `org`/`contact`/`domain`, yet
the generated report — which carries no `destination_ip`/`protocol` — fails
`validate` (the type-schema conformance pass reports the missing
schema-required fields), so `valid` is false, not true. -/
theorem claim_c4_counterexample :
    ((Json.str "connection") ∈ view4.categories
      ∧ (Json.str "ddos") ∈ view4.typesFor (.str "connection"))
    ∧ (do
        let d ← generateReport view4 "f47ac10b-58cc-4372-a567-0e02b2c3d479"
          "2024-01-15T10:30:00Z" "connection" "ddos" "192.0.2.1"
          [("org", .str "Acme"), ("contact", .str "abuse@acme.example"),
            ("domain", .str "acme.example")]
          [("org", .str "Send"), ("contact", .str "send@send.example"),
            ("domain", .str "send.example")]
          none none none none none none
        Xarf.validate view4 (some ddosSchemaPass) (fun _ => true)
          (fun _ => .error "unused") (.inr (.obj d)) false false).map
        ValidationResult.valid
      = .ok false :=
  ⟨⟨by decide, by decide⟩, by rfl⟩

/-- A truthy `get` is in particular a successful `get`. -/
theorem Doc.getTruthy_get {d : Doc} {k : String} {v : Json}
    (h : d.getTruthy k = some v) : d.get k = some v := by
  unfold Doc.getTruthy at h
  cases hget : d.get k with
  | none => rw [hget] at h; simp at h
  | some w =>
    rw [hget] at h
    by_cases ht : w.truthy
    · simp only [ht, if_true] at h
      rw [h]
    · simp only [ht, Bool.false_eq_true, if_false] at h
      simp at h

/-- `generate_report` with only the five mandatory arguments produces exactly
the eight-field base document. -/
theorem generateReport_minimal (view : RegistryView)
    (freshId now cat ty srcId : String) (rep snd : Doc)
    (hsrc : srcId.isEmpty = false)
    (hrepc : badContactField view rep = none)
    (hsndc : badContactField view snd = none)
    (hcat : (Json.str cat) ∈ view.categories)
    (hty : (Json.str ty) ∈ view.typesFor (.str cat))
    (o1 c1 d1 o2 c2 d2 : Json)
    (hro : rep.get "org" = some o1) (hrc : rep.get "contact" = some c1)
    (hrd : rep.get "domain" = some d1)
    (hso : snd.get "org" = some o2) (hsc : snd.get "contact" = some c2)
    (hsd : snd.get "domain" = some d2) :
    generateReport view freshId now cat ty srcId rep snd
        none none none none none none
      = .ok [("xarf_version", .str "4.0.0"), ("report_id", .str freshId),
          ("timestamp", .str now),
          ("reporter", .obj [("org", o1), ("contact", c1), ("domain", d1)]),
          ("sender", .obj [("org", o2), ("contact", c2), ("domain", d2)]),
          ("source_identifier", .str srcId), ("category", .str cat),
          ("type", .str ty)] := by
  have hcat2 : ¬(Json.str cat) ∉ view.categories := by simp [hcat]
  have hty2 : ¬(Json.str ty) ∉ view.typesFor (.str cat) := by simp [hty]
  simp only [generateReport, generatorXarfVersion, hsrc, hrepc, hsndc,
    hro, hrc, hrd, hso, hsc, hsd, hcat2, hty2, Bool.false_eq_true,
    if_false, if_neg, not_false_eq_true, bind, Except.bind, pure,
    Except.pure]

/-- On the eight-field generated document, the hand-written validation
passes produce no errors, so `validate` (schema pass disabled) reports
`valid`. -/
theorem validateDoc_generated (view : RegistryView) (iso : String → Bool)
    (freshId now cat ty srcId : String) (o1 c1 d1 o2 c2 d2 : Json)
    (hreq : view.requiredFields ⊆ ["xarf_version", "report_id", "timestamp",
      "reporter", "sender", "source_identifier", "category", "type"])
    (hcr : view.contactRequired ⊆ ["org", "contact", "domain"])
    (hcat : (Json.str cat) ∈ view.categories)
    (hty : (Json.str ty) ∈ view.typesFor (.str cat))
    (hiso : iso (pyReplace now "Z" "+00:00") = true) :
    (validateDoc view none iso
      [("xarf_version", .str "4.0.0"), ("report_id", .str freshId),
       ("timestamp", .str now),
       ("reporter", .obj [("org", o1), ("contact", c1), ("domain", d1)]),
       ("sender", .obj [("org", o2), ("contact", c2), ("domain", d2)]),
       ("source_identifier", .str srcId), ("category", .str cat),
       ("type", .str ty)] false false).valid = true := by
  set d : Doc := [("xarf_version", .str "4.0.0"), ("report_id", .str freshId),
    ("timestamp", .str now),
    ("reporter", .obj [("org", o1), ("contact", c1), ("domain", d1)]),
    ("sender", .obj [("org", o2), ("contact", c2), ("domain", d2)]),
    ("source_identifier", .str srcId), ("category", .str cat),
    ("type", .str ty)] with hd
  have ha : requiredFieldErrs view d = [] := by
    unfold requiredFieldErrs
    rw [List.filterMap_eq_nil_iff]
    intro f hf
    have hf8 := hreq hf
    fin_cases hf8 <;> rfl
  have hb : formatErrs view iso d = [] := by
    unfold formatErrs
    rw [List.append_eq_nil, List.append_eq_nil]
    refine ⟨⟨?_, ?_⟩, ?_⟩
    · by_cases hn : now.isEmpty
      · rw [show Doc.getTruthy d "timestamp" = none from by
          simp [hd, Doc.getTruthy, Doc.get, List.find?, Json.truthy, hn]]
      · rw [show Doc.getTruthy d "timestamp" = some (.str now) from by
          simp [hd, Doc.getTruthy, Doc.get, List.find?, Json.truthy, hn]]
        simp [Json.pyStr, hiso]
    · rw [show Doc.getD d "reporter" (.obj [])
          = .obj [("org", o1), ("contact", c1), ("domain", d1)] from by
        simp [hd, Doc.getD, Doc.get, List.find?]]
      unfold contactInfoErrs
      rw [List.filterMap_eq_nil_iff]
      intro f hf
      have hf3 := hcr hf
      fin_cases hf3 <;> rfl
    · rw [show Doc.getD d "sender" (.obj [])
          = .obj [("org", o2), ("contact", c2), ("domain", d2)] from by
        simp [hd, Doc.getD, Doc.get, List.find?]]
      unfold contactInfoErrs
      rw [List.filterMap_eq_nil_iff]
      intro f hf
      have hf3 := hcr hf
      fin_cases hf3 <;> rfl
  have hgetcat : Doc.get d "category" = some (.str cat) := by
    simp [hd, Doc.get, List.find?]
  have hgetty : Doc.get d "type" = some (.str ty) := by
    simp [hd, Doc.get, List.find?]
  have hgetproto : Doc.get d "protocol" = none := by
    simp [hd, Doc.get, List.find?]
  have hc : valueErrs view d = [] := by
    unfold valueErrs
    by_cases hce : cat.isEmpty
    · have hcatT : Doc.getTruthy d "category" = none := by
        simp [Doc.getTruthy, hgetcat, Json.truthy, hce]
      rw [hcatT]
      rfl
    · have hcatT : Doc.getTruthy d "category" = some (.str cat) := by
        simp [Doc.getTruthy, hgetcat, Json.truthy, hce]
      by_cases hte : ty.isEmpty
      · have htyT : Doc.getTruthy d "type" = none := by
          simp [Doc.getTruthy, hgetty, Json.truthy, hte]
        rw [hcatT, htyT]
        simp [hcat]
      · have htyT : Doc.getTruthy d "type" = some (.str ty) := by
          simp [Doc.getTruthy, hgetty, Json.truthy, hte]
        rw [hcatT, htyT]
        simp [hcat, hty]
  have hdd : catSpecificErrs d = [] := by
    unfold catSpecificErrs
    by_cases hce : cat.isEmpty
    · have hcatT : Doc.getTruthy d "category" = none := by
        simp [Doc.getTruthy, hgetcat, Json.truthy, hce]
      rw [hcatT]
    · have hcatT : Doc.getTruthy d "category" = some (.str cat) := by
        simp [Doc.getTruthy, hgetcat, Json.truthy, hce]
      by_cases hte : ty.isEmpty
      · have htyT : Doc.getTruthy d "type" = none := by
          simp [Doc.getTruthy, hgetty, Json.truthy, hte]
        rw [hcatT, htyT]
      · have htyT : Doc.getTruthy d "type" = some (.str ty) := by
          simp [Doc.getTruthy, hgetty, Json.truthy, hte]
        rw [hcatT, htyT]
        simp [hgetproto]
  have herr : collectedErrs view none iso d = [] := by
    unfold collectedErrs
    rw [ha, hb, hc, hdd]
    rfl
  unfold validateDoc
  rw [herr]
  simp [dedupErrs]

/-- Claim C4 (amended): the generator/validator round trip holds for the
hand-written validation path — for every registry view whose required-field
and contact vocabularies are within the v4 core set, every registry-valid
category/type pair and contacts with truthy `org`/`contact`/`domain`,
`generate_report`'s output passes `validate` with `valid = true` when the
schema-conformance pass is disabled (`use_schema_validation=False`). With
the conformance pass enabled, combinations whose type schema adds required
fields fail (see the counterexample). -/
theorem claim_c4_roundtrip_handwritten (view : RegistryView)
    (freshId now cat ty srcId : String) (rep snd : Doc)
    (iso : String → Bool) (jp : String → Except String Json)
    (hreq : view.requiredFields ⊆ ["xarf_version", "report_id", "timestamp",
      "reporter", "sender", "source_identifier", "category", "type"])
    (hcr : view.contactRequired ⊆ ["org", "contact", "domain"])
    (hcat : (Json.str cat) ∈ view.categories)
    (hty : (Json.str ty) ∈ view.typesFor (.str cat))
    (hsrc : srcId.isEmpty = false)
    (hrep : ∀ k ∈ (["org", "contact", "domain"] : List String),
      ∃ v, rep.getTruthy k = some v)
    (hsnd : ∀ k ∈ (["org", "contact", "domain"] : List String),
      ∃ v, snd.getTruthy k = some v)
    (hiso : iso (pyReplace now "Z" "+00:00") = true) :
    (do
      let d ← generateReport view freshId now cat ty srcId rep snd
        none none none none none none
      Xarf.validate view none iso jp (.inr (.obj d)) false false).map
      ValidationResult.valid = .ok true := by
  have hrepc : badContactField view rep = none := by
    rw [badContactField, List.find?_eq_none]
    intro f hf
    obtain ⟨v, hv⟩ := hrep f (hcr hf)
    simp [hv]
  have hsndc : badContactField view snd = none := by
    rw [badContactField, List.find?_eq_none]
    intro f hf
    obtain ⟨v, hv⟩ := hsnd f (hcr hf)
    simp [hv]
  obtain ⟨o1, ho1⟩ := hrep "org" (by simp)
  obtain ⟨c1, hc1⟩ := hrep "contact" (by simp)
  obtain ⟨d1, hd1⟩ := hrep "domain" (by simp)
  obtain ⟨o2, ho2⟩ := hsnd "org" (by simp)
  obtain ⟨c2, hc2⟩ := hsnd "contact" (by simp)
  obtain ⟨d2, hd2⟩ := hsnd "domain" (by simp)
  rw [show (do
      let d ← generateReport view freshId now cat ty srcId rep snd
        none none none none none none
      Xarf.validate view none iso jp (.inr (.obj d)) false false)
    = Xarf.validate view none iso jp (.inr (.obj
        [("xarf_version", .str "4.0.0"), ("report_id", .str freshId),
         ("timestamp", .str now),
         ("reporter", .obj [("org", o1), ("contact", c1), ("domain", d1)]),
         ("sender", .obj [("org", o2), ("contact", c2), ("domain", d2)]),
         ("source_identifier", .str srcId), ("category", .str cat),
         ("type", .str ty)])) false false from by
    rw [generateReport_minimal view freshId now cat ty srcId rep snd hsrc
      hrepc hsndc hcat hty o1 c1 d1 o2 c2 d2
      (Doc.getTruthy_get ho1) (Doc.getTruthy_get hc1) (Doc.getTruthy_get hd1)
      (Doc.getTruthy_get ho2) (Doc.getTruthy_get hc2) (Doc.getTruthy_get hd2)]
    rfl]
  rw [show Xarf.validate view none iso jp (.inr (.obj
      [("xarf_version", .str "4.0.0"), ("report_id", .str freshId),
       ("timestamp", .str now),
       ("reporter", .obj [("org", o1), ("contact", c1), ("domain", d1)]),
       ("sender", .obj [("org", o2), ("contact", c2), ("domain", d2)]),
       ("source_identifier", .str srcId), ("category", .str cat),
       ("type", .str ty)])) false false
    = .ok (validateDoc view none iso
        [("xarf_version", .str "4.0.0"), ("report_id", .str freshId),
         ("timestamp", .str now),
         ("reporter", .obj [("org", o1), ("contact", c1), ("domain", d1)]),
         ("sender", .obj [("org", o2), ("contact", c2), ("domain", d2)]),
         ("source_identifier", .str srcId), ("category", .str cat),
         ("type", .str ty)] false false) from rfl]
  rw [Except.map]
  rw [validateDoc_generated view iso freshId now cat ty srcId o1 c1 d1 o2 c2 d2
    hreq hcr hcat hty hiso]

theorem claim_c4_roundtrip_handwritten_witness :
    (do
      let d ← generateReport view4 "f47ac10b-58cc-4372-a567-0e02b2c3d479"
        "2024-01-15T10:30:00Z" "connection" "ddos" "192.0.2.1"
        [("org", .str "Acme"), ("contact", .str "abuse@acme.example"),
          ("domain", .str "acme.example")]
        [("org", .str "Send"), ("contact", .str "send@send.example"),
          ("domain", .str "send.example")]
        none none none none none none
      Xarf.validate view4 none (fun _ => true) (fun _ => .error "unused")
        (.inr (.obj d)) false false).map ValidationResult.valid
    = .ok true :=
  claim_c4_roundtrip_handwritten view4 "f47ac10b-58cc-4372-a567-0e02b2c3d479"
    "2024-01-15T10:30:00Z" "connection" "ddos" "192.0.2.1"
    [("org", .str "Acme"), ("contact", .str "abuse@acme.example"),
      ("domain", .str "acme.example")]
    [("org", .str "Send"), ("contact", .str "send@send.example"),
      ("domain", .str "send.example")]
    (fun _ => true) (fun _ => .error "unused")
    (by decide) (by decide) (by decide) (by decide) (by decide)
    (by intro k hk; fin_cases hk <;> exact ⟨_, rfl⟩)
    (by intro k hk; fin_cases hk <;> exact ⟨_, rfl⟩)
    rfl

end Xarf
